import Mathlib

/-!
Shallow embedding of the GSN computation engine of this repository
(src/opendeep/models/gsn.py and src/opendeep/models/model.py).

Tensor values are abstracted by a type V together with a record of the
numeric and stochastic operations the graph builders use (dot products,
transposition, addition, the two activation functions, and the three
stochastic primitives: additive Gaussian noise, Bernoulli resampling and
salt-and-pepper masking).  Each stochastic primitive is modelled as a
function of its arguments; the random stream is not threaded explicitly,
which is adequate because every claim below is about where in the data
flow the primitives are applied, not about the distribution of draws.
The free term algebra Expr instantiates the record and is used for
concrete witnesses, so that distinct applications of a primitive stay
distinct terms.

Python in-place mutation of the hiddens list and of the p_X_chain list
becomes explicit state passing of the pair (hiddens, chain).
-/

namespace GSNSpec

/-- The operations of the numeric backend used by the GSN graph builders
(T.dot, transposition, addition, T.zeros_like, add_gaussian_noise,
MRG.binomial, salt_and_pepper, and the two activation functions).
Gaussian noise and masking noise take the sigma and probability scalar
arguments that the source passes at each call site. -/
structure Ops (V : Type) where
  dot : V → V → V
  transpose : V → V
  add : V → V → V
  zeros_like : V → V
  gaussian : Rat → V → V
  binomial : V → V
  salt_pepper : Rat → V → V
  visible_activation : V → V
  hidden_activation : V → V

/-- The configuration flags of the GSN graph builders that the claims
depend on (gsn.py defaults dictionary and GSN init, gsn.py:56-83,126-146). -/
structure GSNConfig where
  add_noise : Bool
  noiseless_h1 : Bool
  hidden_add_noise_sigma : Rat
  input_salt_and_pepper : Rat
  input_sampling : Bool

/-- Free term algebra over the backend operations, used to instantiate
Ops for concrete witnesses and counterexamples. -/
inductive Expr where
  | input : Expr
  | weight : Nat → Expr
  | bias : Nat → Expr
  | atom : Nat → Expr
  | dot : Expr → Expr → Expr
  | transpose : Expr → Expr
  | add : Expr → Expr → Expr
  | zeros_like : Expr → Expr
  | gaussian : Rat → Expr → Expr
  | binomial : Expr → Expr
  | salt_pepper : Rat → Expr → Expr
  | visAct : Expr → Expr
  | hidAct : Expr → Expr
deriving DecidableEq, Inhabited, Repr

/-- The instantiation of the backend operations by the free term algebra. -/
def exprOps : Ops Expr where
  dot := Expr.dot
  transpose := Expr.transpose
  add := Expr.add
  zeros_like := Expr.zeros_like
  gaussian := Expr.gaussian
  binomial := Expr.binomial
  salt_pepper := Expr.salt_pepper
  visible_activation := Expr.visAct
  hidden_activation := Expr.hidAct

/-- Number of Gaussian-noise applications occurring in a term. -/
def Expr.gaussCount : Expr → Nat
  | .input => 0
  | .weight _ => 0
  | .bias _ => 0
  | .atom _ => 0
  | .dot a b => a.gaussCount + b.gaussCount
  | .transpose a => a.gaussCount
  | .add a b => a.gaussCount + b.gaussCount
  | .zeros_like a => a.gaussCount
  | .gaussian _ a => a.gaussCount + 1
  | .binomial a => a.gaussCount
  | .salt_pepper _ a => a.gaussCount
  | .visAct a => a.gaussCount
  | .hidAct a => a.gaussCount

variable {V : Type} [Inhabited V]

/-- The pre-activation dot-product rule of simple_update_layer
(gsn.py:652-666): for the visible layer, dot(hiddens[1], W_0.T) + b_0;
for the top layer, dot(hiddens[i-1], W_(i-1)) + b_i; for an in-between
layer, dot(hiddens[i+1], W_i.T) + dot(hiddens[i-1], W_(i-1)) + b_i. -/
def preActivation (ops : Ops V) (weights_list bias_list hiddens : List V) (i : Nat) : V :=
  if i = 0 then
    ops.add (ops.dot (hiddens.getD 1 default) (ops.transpose (weights_list.getD 0 default)))
      (bias_list.getD 0 default)
  else if i = hiddens.length - 1 then
    ops.add (ops.dot (hiddens.getD (i - 1) default) (weights_list.getD (i - 1) default))
      (bias_list.getD i default)
  else
    ops.add
      (ops.add (ops.dot (hiddens.getD (i + 1) default) (ops.transpose (weights_list.getD i default)))
        (ops.dot (hiddens.getD (i - 1) default) (weights_list.getD (i - 1) default)))
      (bias_list.getD i default)

/-- The local noise gate of simple_update_layer (gsn.py:668-671): for
layer 1 with noiseless_h1 set, the add_noise flag is overridden to
false; every other layer keeps the global flag. -/
def layer_noise (cfg : GSNConfig) (i : Nat) : Bool :=
  if i = 1 ∧ cfg.noiseless_h1 = true then false else cfg.add_noise

/-- One layer update (gsn.py:638-708).  Mutation of hiddens[i] and the
append to p_X_chain become a returned pair (new hiddens, new chain).
For a non-visible layer the chain is returned unchanged, matching the
source where the odd pass passes None for p_X_chain and never touches
it. -/
def simple_update_layer (ops : Ops V) (cfg : GSNConfig) (weights_list bias_list : List V)
    (hiddens chain : List V) (i : Nat) : List V × List V :=
  let pre := preActivation ops weights_list bias_list hiddens i
  let pre2 := if i ≠ 0 ∧ layer_noise cfg i = true then
      ops.gaussian cfg.hidden_add_noise_sigma pre
    else pre
  let act := if i = 0 then ops.visible_activation pre2 else ops.hidden_activation pre2
  let post := if i ≠ 0 ∧ layer_noise cfg i = true then
      ops.gaussian cfg.hidden_add_noise_sigma act
    else act
  if i = 0 then
    let sampled := if cfg.input_sampling = true then ops.binomial post else post
    let corrupted := ops.salt_pepper cfg.input_salt_and_pepper sampled
    (hiddens.set 0 corrupted, chain ++ [post])
  else
    (hiddens.set i post, chain)

/-- The odd layer indices 1, 3, 5, ... below n, in increasing order
(range(1, len(hiddens), 2) in gsn.py:603). -/
def oddIndices (n : Nat) : List Nat :=
  (List.range n).filter (fun i => i % 2 = 1)

/-- The even layer indices 0, 2, 4, ... below n, in increasing order
(range(0, len(hiddens), 2) in gsn.py:623). -/
def evenIndices (n : Nat) : List Nat :=
  (List.range n).filter (fun i => i % 2 = 0)

/-- Apply simple_update_layer at each index of the given list in order,
threading the (hiddens, chain) state. -/
def applySublist (ops : Ops V) (cfg : GSNConfig) (weights_list bias_list : List V)
    (st : List V × List V) (idxs : List Nat) : List V × List V :=
  idxs.foldl (fun st i => simple_update_layer ops cfg weights_list bias_list st.1 st.2 i) st

/-- update_odd_layers (gsn.py:590-605): loop simple_update_layer over
the odd indices.  The source passes None for p_X_chain since odd layers
never append; here the chain component is a dummy empty list and only
the hiddens component is returned. -/
def update_odd_layers (ops : Ops V) (cfg : GSNConfig) (weights_list bias_list : List V)
    (hiddens : List V) : List V :=
  (applySublist ops cfg weights_list bias_list (hiddens, []) (oddIndices hiddens.length)).1

/-- update_even_layers (gsn.py:609-625): loop simple_update_layer over
the even indices, threading the chain. -/
def update_even_layers (ops : Ops V) (cfg : GSNConfig) (weights_list bias_list : List V)
    (hiddens chain : List V) : List V × List V :=
  applySublist ops cfg weights_list bias_list (hiddens, chain) (evenIndices hiddens.length)

/-- update_layers (gsn.py:517-537): one update over the odd layers
followed by one update over the even layers. -/
def update_layers (ops : Ops V) (cfg : GSNConfig) (weights_list bias_list : List V)
    (hiddens chain : List V) : List V × List V :=
  update_even_layers ops cfg weights_list bias_list
    (update_odd_layers ops cfg weights_list bias_list hiddens) chain

/-- update_layers_reverse (gsn.py:565-585): one update over the even
layers followed by one update over the odd layers. -/
def update_layers_reverse (ops : Ops V) (cfg : GSNConfig) (weights_list bias_list : List V)
    (hiddens chain : List V) : List V × List V :=
  let st := update_even_layers ops cfg weights_list bias_list hiddens chain
  (update_odd_layers ops cfg weights_list bias_list st.1, st.2)

/-- The hidden-layer zero initialisation of build_gsn (gsn.py:781-783):
starting from the previous entry, append zeros_like(dot(previous, w))
for each weight matrix. -/
def init_hiddens_from (ops : Ops V) : V → List V → List V
  | _, [] => []
  | prev, w :: ws =>
      let z := ops.zeros_like (ops.dot prev w)
      z :: init_hiddens_from ops z ws

/-- Iterate update_layers the given number of times on the
(hiddens, chain) state (the walkbacks loop of gsn.py:786-788). -/
def walkback_iter (ops : Ops V) (cfg : GSNConfig) (weights_list bias_list : List V) :
    Nat → List V × List V → List V × List V
  | 0, st => st
  | Nat.succ k, st =>
      walkback_iter ops cfg weights_list bias_list k
        (update_layers ops cfg weights_list bias_list st.1 st.2)

/-- build_gsn (gsn.py:715-790): corrupt the input if add_noise, start
all hidden layers at zeros, run the requested number of walkback
updates, and return the prediction chain together with the final layer
values. -/
def build_gsn (ops : Ops V) (cfg : GSNConfig) (X : V) (weights_list bias_list : List V)
    (walkbacks : Nat) : List V × List V :=
  let X_init := if cfg.add_noise = true then ops.salt_pepper cfg.input_salt_and_pepper X else X
  let hiddens := X_init :: init_hiddens_from ops X_init weights_list
  let st := walkback_iter ops cfg weights_list bias_list walkbacks (hiddens, [])
  (st.2, st.1)

/-- The per-step costs of a prediction chain against the true input
(gsn.py:232 and gsn.py:858): one elementwise cost value per chain entry.
Cost values are modelled as rationals. -/
def gsn_costs (cost_function : V → V → Rat) (p_X_chain : List V) (X : V) : List Rat :=
  p_X_chain.map (fun rX => cost_function rX X)

/-- The total training cost (gsn.py:234 and gsn.py:860): numpy.sum over
the per-step costs. -/
def gsn_cost (cost_function : V → V → Rat) (p_X_chain : List V) (X : V) : Rat :=
  (gsn_costs cost_function p_X_chain X).sum

/-- The separately reported progress metric (gsn.py:233 and gsn.py:859):
the last entry of the per-step cost list. -/
def show_gsn_cost (cost_function : V → V → Rat) (p_X_chain : List V) (X : V) : Rat :=
  (gsn_costs cost_function p_X_chain X).getLast?.getD 0

/-- build_gsn_scan (gsn.py:824-862): build the chain exactly as
build_gsn does, then return the last prediction, the summed cost of
every chain step against the clean input, and the last-step cost. -/
def build_gsn_scan (ops : Ops V) (cfg : GSNConfig) (X : V) (weights_list bias_list : List V)
    (walkbacks : Nat) (cost_function : V → V → Rat) : V × Rat × Rat :=
  let X_init := if cfg.add_noise = true then ops.salt_pepper cfg.input_salt_and_pepper X else X
  let hiddens_0 := X_init :: init_hiddens_from ops X_init weights_list
  let st := walkback_iter ops cfg weights_list bias_list walkbacks (hiddens_0, [])
  let p_X_chain := st.2
  let costs := p_X_chain.map (fun rX => cost_function rX X)
  let cost := costs.sum
  let sc := costs.getLast?.getD 0
  (p_X_chain.getLast?.getD default, cost, sc)

/-! The sampling engine (GSN.sample, gsn.py:382-443). -/

/-- f_noise (gsn.py:301-303): salt-and-pepper corruption of the input. -/
def f_noise (ops : Ops V) (cfg : GSNConfig) (x : V) : V :=
  ops.salt_pepper cfg.input_salt_and_pepper x

/-- The compiled one-sweep sampling function in the multi-layer mode
(gsn.py:256-275 and gsn.py:314-317, split back into state and chain by
sampling_wrapper, gsn.py:397-402): one update_layers sweep on the given
network state with an empty chain. -/
def sampling_wrapper (ops : Ops V) (cfg : GSNConfig) (weights_list bias_list : List V)
    (state : List V) : List V × List V :=
  update_layers ops cfg weights_list bias_list state []

/-- The compiled sampling function in the single-layer mode
(gsn.py:306-309): the last chain entry of one update_layers sweep on the
two-entry state.  The compiled function takes only the visible input;
the symbolic first-hidden input does not occur in the output expression,
so it is supplied here as an arbitrary placeholder h1. -/
def f_sample_single (ops : Ops V) (cfg : GSNConfig) (weights_list bias_list : List V)
    (h1 x : V) : V :=
  ((update_layers ops cfg weights_list bias_list [x, h1] []).2).getLast?.getD default

/-- The loop of sample_some_numbers_single_layer (gsn.py:388-392): each
iteration applies f_sample, collects the result, then rebinarises it
with a numpy binomial draw and re-noises it for the next iteration. -/
def sample_single_loop (ops : Ops V) (cfg : GSNConfig) (weights_list bias_list : List V)
    (h1 : V) : Nat → V → List V
  | 0, _ => []
  | Nat.succ k, x =>
      let x1 := f_sample_single ops cfg weights_list bias_list h1 x
      x1 :: sample_single_loop ops cfg weights_list bias_list h1 k
        (f_noise ops cfg (ops.binomial x1))

/-- sample_some_numbers_single_layer (gsn.py:384-395): the collected
samples start with the clean seed; the noisy copy of the seed is what
enters the loop. -/
def sample_some_numbers_single_layer (ops : Ops V) (cfg : GSNConfig)
    (weights_list bias_list : List V) (h1 initial : V) (n_samples : Nat) : List V :=
  initial :: sample_single_loop ops cfg weights_list bias_list h1 (n_samples - 1)
    (f_noise ops cfg initial)

/-- The loop of sample_some_numbers (gsn.py:416-428): each iteration
feeds the last network state through one sweep, appends the emitted
visible chain to the collected output, and keeps the new state. -/
def sample_multi_loop (ops : Ops V) (cfg : GSNConfig) (weights_list bias_list : List V) :
    Nat → List V → List V
  | 0, _ => []
  | Nat.succ k, state =>
      let out := sampling_wrapper ops cfg weights_list bias_list state
      out.2 ++ sample_multi_loop ops cfg weights_list bias_list k out.1

/-- sample_some_numbers (gsn.py:404-438): the visible chain starts with
the clean seed; the initial network state is the noisy seed followed by
one zero matrix per hidden layer (one per bias beyond the visible one). -/
def sample_some_numbers (ops : Ops V) (cfg : GSNConfig) (weights_list bias_list : List V)
    (initial zeroH : V) (n_samples : Nat) : List V :=
  initial :: sample_multi_loop ops cfg weights_list bias_list (n_samples - 1)
    (f_noise ops cfg initial :: List.replicate (bias_list.length - 1) zeroH)

/-- GSN.sample (gsn.py:440-443): dispatch on the number of hidden
layers. -/
def GSN.sample (ops : Ops V) (cfg : GSNConfig) (layers : Nat)
    (weights_list bias_list : List V) (h1 initial zeroH : V) (n_samples : Nat) : List V :=
  if layers = 1 then
    sample_some_numbers_single_layer ops cfg weights_list bias_list h1 initial n_samples
  else
    sample_some_numbers ops cfg weights_list bias_list initial zeroH n_samples

/-! Parameter loading (GSN.load_params, gsn.py:475-483, and
Model.set_param_values, model.py:333-366). -/

/-- The effect of the python list comprehension
zip(new_values, targets) followed by set_value on each pair: the paired
prefix takes the new values, targets beyond the shorter list keep their
old values, and no length check is made. -/
def zipAssign (new_values targets : List V) : List V :=
  List.zipWith (fun nv _ => nv) new_values targets ++ targets.drop new_values.length

/-- GSN.load_params, file-exists branch (gsn.py:478-480): the first
len(weights_list) loaded entries are zipped onto the weights and the
rest onto the biases.  The function has no failure outcome. -/
def GSN.load_params (loaded_params weights_list bias_list : List V) : List V × List V :=
  (zipAssign (loaded_params.take weights_list.length) weights_list,
   zipAssign (loaded_params.drop weights_list.length) bias_list)

/-- Model.set_param_values (model.py:333-366): on a length mismatch the
parameters are left untouched and False is returned (after logging);
otherwise every parameter takes the given value and True is returned. -/
def Model.set_param_values (params param_values : List V) : List V × Bool :=
  if param_values.length ≠ params.length then (params, false)
  else (param_values, true)

/-! Momentum SGD (GSN init, gsn.py:242-247). -/

/-- One momentum-buffer value (gsn.py:244):
momentum * gb + (1 - momentum) * g. -/
def m_gradient_step (momentum gb g : Rat) : Rat :=
  momentum * gb + (1 - momentum) * g

/-- The parameter and buffer updates of one minibatch step
(gsn.py:242-247): every parameter moves by learning_rate times the newly
computed momentum buffer, and every buffer becomes that newly computed
value. -/
def gsn_sgd_updates (learning_rate momentum : Rat)
    (params gradient_buffer gradient : List Rat) : List Rat × List Rat :=
  let m_gradient := List.zipWith (m_gradient_step momentum) gradient_buffer gradient
  (List.zipWith (fun p mg => p - learning_rate * mg) params m_gradient, m_gradient)

/-! Concrete instantiations used by witnesses and counterexamples. -/

/-- The trivial one-value backend, used by witnesses that only exercise
lengths. -/
def unitOps : Ops Unit where
  dot := fun _ _ => ()
  transpose := fun _ => ()
  add := fun _ _ => ()
  zeros_like := fun _ => ()
  gaussian := fun _ _ => ()
  binomial := fun _ => ()
  salt_pepper := fun _ _ => ()
  visible_activation := fun _ => ()
  hidden_activation := fun _ => ()

/-- The default training configuration of the repository
(gsn.py:56-83): noise on, noiseless first hidden layer, sigma 2,
masking probability 2/5, input sampling on. -/
def cfgTrain : GSNConfig where
  add_noise := true
  noiseless_h1 := true
  hidden_add_noise_sigma := 2
  input_salt_and_pepper := 2/5
  input_sampling := true

/-- The reconstruction configuration (gsn.py:213-226): the same
settings with the noise flag off. -/
def cfgRecon : GSNConfig where
  add_noise := false
  noiseless_h1 := true
  hidden_add_noise_sigma := 2
  input_salt_and_pepper := 2/5
  input_sampling := true

/-- A training configuration with the first hidden layer not exempted
from noise, for exercising the noise gate. -/
def cfgNoisyH1 : GSNConfig where
  add_noise := true
  noiseless_h1 := false
  hidden_add_noise_sigma := 2
  input_salt_and_pepper := 2/5
  input_sampling := true

/-! Structural lemmas about the layer updates, shared by the claim
theorems below. -/

lemma simple_update_layer_fst_length (ops : Ops V) (cfg : GSNConfig)
    (w b hiddens chain : List V) (i : Nat) :
    ((simple_update_layer ops cfg w b hiddens chain i).1).length = hiddens.length := by
  unfold simple_update_layer
  by_cases h : i = 0 <;> simp [h]

lemma simple_update_layer_fst_indep (ops : Ops V) (cfg : GSNConfig)
    (w b hiddens chain chain' : List V) (i : Nat) :
    (simple_update_layer ops cfg w b hiddens chain i).1
      = (simple_update_layer ops cfg w b hiddens chain' i).1 := by
  unfold simple_update_layer
  by_cases h : i = 0 <;> simp [h]

lemma simple_update_layer_snd_of_ne (ops : Ops V) (cfg : GSNConfig)
    (w b hiddens chain : List V) (i : Nat) (hi : i ≠ 0) :
    (simple_update_layer ops cfg w b hiddens chain i).2 = chain := by
  unfold simple_update_layer
  simp [hi]

lemma simple_update_layer_snd_zero (ops : Ops V) (cfg : GSNConfig)
    (w b hiddens chain : List V) :
    (simple_update_layer ops cfg w b hiddens chain 0).2
      = chain ++ [ops.visible_activation (preActivation ops w b hiddens 0)] := by
  unfold simple_update_layer
  simp

lemma applySublist_fst_length (ops : Ops V) (cfg : GSNConfig) (w b : List V)
    (idxs : List Nat) :
    ∀ st : List V × List V, ((applySublist ops cfg w b st idxs).1).length = st.1.length := by
  induction idxs with
  | nil => intro st; simp [applySublist]
  | cons i is ih =>
      intro st
      simpa [applySublist, List.foldl_cons] using
        (ih (simple_update_layer ops cfg w b st.1 st.2 i)).trans
          (simple_update_layer_fst_length ops cfg w b st.1 st.2 i)

lemma applySublist_fst_indep (ops : Ops V) (cfg : GSNConfig) (w b : List V)
    (idxs : List Nat) :
    ∀ hiddens chain chain' : List V,
      (applySublist ops cfg w b (hiddens, chain) idxs).1
        = (applySublist ops cfg w b (hiddens, chain') idxs).1 := by
  induction idxs with
  | nil => intro hiddens chain chain'; simp [applySublist]
  | cons i is ih =>
      intro hiddens chain chain'
      simp only [applySublist, List.foldl_cons]
      have h1 := simple_update_layer_fst_indep ops cfg w b hiddens chain chain' i
      calc (List.foldl _ (simple_update_layer ops cfg w b hiddens chain i) is).1
          = (applySublist ops cfg w b
              ((simple_update_layer ops cfg w b hiddens chain i).1,
               (simple_update_layer ops cfg w b hiddens chain i).2) is).1 := by
            simp [applySublist]
        _ = (applySublist ops cfg w b
              ((simple_update_layer ops cfg w b hiddens chain' i).1,
               (simple_update_layer ops cfg w b hiddens chain' i).2) is).1 := by
            rw [← h1]
            exact ih _ _ _
        _ = (applySublist ops cfg w b (simple_update_layer ops cfg w b hiddens chain' i) is).1 := by
            simp [applySublist]

lemma applySublist_snd_length (ops : Ops V) (cfg : GSNConfig) (w b : List V)
    (idxs : List Nat) :
    ∀ st : List V × List V,
      ((applySublist ops cfg w b st idxs).2).length = st.2.length + idxs.count 0 := by
  induction idxs with
  | nil => intro st; simp [applySublist]
  | cons i is ih =>
      intro st
      simp only [applySublist, List.foldl_cons]
      have step := ih (simple_update_layer ops cfg w b st.1 st.2 i)
      by_cases hi : i = 0
      · subst hi
        rw [show (List.foldl _ _ is) = applySublist ops cfg w b _ is from rfl] at *
        rw [step, simple_update_layer_snd_zero]
        simp [List.count_cons]
        omega
      · rw [show (List.foldl _ _ is) = applySublist ops cfg w b _ is from rfl] at *
        rw [step, simple_update_layer_snd_of_ne ops cfg w b st.1 st.2 i hi]
        simp [List.count_cons, hi]

lemma applySublist_snd_of_all_ne (ops : Ops V) (cfg : GSNConfig) (w b : List V)
    (idxs : List Nat) :
    ∀ st : List V × List V, (∀ i ∈ idxs, i ≠ 0) →
      (applySublist ops cfg w b st idxs).2 = st.2 := by
  induction idxs with
  | nil => intro st _; simp [applySublist]
  | cons i is ih =>
      intro st hne
      simp only [applySublist, List.foldl_cons]
      rw [show (List.foldl _ _ is) = applySublist ops cfg w b _ is from rfl]
      rw [ih _ (fun j hj => hne j (List.mem_cons_of_mem i hj))]
      exact simple_update_layer_snd_of_ne ops cfg w b st.1 st.2 i
        (hne i (List.mem_cons_self i is))

lemma applySublist_append (ops : Ops V) (cfg : GSNConfig) (w b : List V)
    (st : List V × List V) (l₁ l₂ : List Nat) :
    applySublist ops cfg w b st (l₁ ++ l₂)
      = applySublist ops cfg w b (applySublist ops cfg w b st l₁) l₂ := by
  simp [applySublist, List.foldl_append]

lemma mem_oddIndices {n i : Nat} : i ∈ oddIndices n ↔ i < n ∧ i % 2 = 1 := by
  simp [oddIndices, List.mem_filter, List.mem_range]

lemma mem_evenIndices {n i : Nat} : i ∈ evenIndices n ↔ i < n ∧ i % 2 = 0 := by
  simp [evenIndices, List.mem_filter, List.mem_range]

lemma oddIndices_ne_zero {n : Nat} : ∀ i ∈ oddIndices n, i ≠ 0 := by
  intro i hi
  rcases mem_oddIndices.mp hi with ⟨_, hmod⟩
  omega

lemma count_zero_oddIndices (n : Nat) : (oddIndices n).count 0 = 0 := by
  rw [List.count_eq_zero]
  intro h
  exact oddIndices_ne_zero 0 h rfl

lemma count_zero_evenIndices (n : Nat) (hn : 1 ≤ n) : (evenIndices n).count 0 = 1 := by
  have hnd : (evenIndices n).Nodup := (List.nodup_range n).filter _
  have hmem : 0 ∈ evenIndices n := mem_evenIndices.mpr ⟨hn, rfl⟩
  exact List.count_eq_one_of_mem hnd hmem

lemma update_odd_layers_pair (ops : Ops V) (cfg : GSNConfig) (w b : List V)
    (hiddens chain : List V) :
    applySublist ops cfg w b (hiddens, chain) (oddIndices hiddens.length)
      = (update_odd_layers ops cfg w b hiddens, chain) := by
  have h2 := applySublist_snd_of_all_ne ops cfg w b (oddIndices hiddens.length)
    (hiddens, chain) (oddIndices_ne_zero)
  have h1 := applySublist_fst_indep ops cfg w b (oddIndices hiddens.length) hiddens chain []
  exact Prod.ext (h1.trans rfl) h2

lemma update_odd_layers_length (ops : Ops V) (cfg : GSNConfig) (w b : List V)
    (hiddens : List V) :
    (update_odd_layers ops cfg w b hiddens).length = hiddens.length := by
  unfold update_odd_layers
  exact applySublist_fst_length ops cfg w b _ _

lemma update_layers_fst_length (ops : Ops V) (cfg : GSNConfig) (w b : List V)
    (hiddens chain : List V) :
    ((update_layers ops cfg w b hiddens chain).1).length = hiddens.length := by
  unfold update_layers update_even_layers
  rw [applySublist_fst_length]
  exact update_odd_layers_length ops cfg w b hiddens

lemma update_layers_snd_length (ops : Ops V) (cfg : GSNConfig) (w b : List V)
    (hiddens chain : List V) (hn : 1 ≤ hiddens.length) :
    ((update_layers ops cfg w b hiddens chain).2).length = chain.length + 1 := by
  unfold update_layers update_even_layers
  rw [applySublist_snd_length]
  have hlen : (update_odd_layers ops cfg w b hiddens).length = hiddens.length :=
    update_odd_layers_length ops cfg w b hiddens
  rw [hlen, count_zero_evenIndices _ hn]

lemma walkback_iter_fst_length (ops : Ops V) (cfg : GSNConfig) (w b : List V) :
    ∀ (k : Nat) (st : List V × List V),
      ((walkback_iter ops cfg w b k st).1).length = st.1.length := by
  intro k
  induction k with
  | zero => intro st; rfl
  | succ k ih =>
      intro st
      rw [walkback_iter, ih]
      exact update_layers_fst_length ops cfg w b st.1 st.2

lemma walkback_iter_snd_length (ops : Ops V) (cfg : GSNConfig) (w b : List V) :
    ∀ (k : Nat) (st : List V × List V), 1 ≤ st.1.length →
      ((walkback_iter ops cfg w b k st).2).length = st.2.length + k := by
  intro k
  induction k with
  | zero => intro st _; rfl
  | succ k ih =>
      intro st hn
      rw [walkback_iter, ih]
      · rw [update_layers_snd_length ops cfg w b st.1 st.2 hn]
        omega
      · rw [update_layers_fst_length]
        exact hn

lemma build_gsn_chain_length (ops : Ops V) (cfg : GSNConfig) (X : V)
    (w b : List V) (k : Nat) :
    ((build_gsn ops cfg X w b k).1).length = k := by
  unfold build_gsn
  rw [walkback_iter_snd_length]
  · simp
  · simp

lemma list_sum_eq_range_getD (l : List Rat) :
    l.sum = ∑ i in Finset.range l.length, l.getD i 0 := by
  induction l with
  | nil => simp
  | cons a t ih =>
      rw [List.sum_cons, List.length_cons, Finset.sum_range_succ']
      simp only [List.getD_cons_succ, List.getD_cons_zero]
      rw [ih]
      ring

lemma getD_map_of_lt {W : Type} (l : List V) (f : V → W) (i : Nat) (d : W)
    (h : i < l.length) :
    (l.map f).getD i d = f (l.getD i default) := by
  induction l generalizing i with
  | nil => simp at h
  | cons a t ih =>
      cases i with
      | zero => simp
      | succ j =>
          simp only [List.map_cons, List.getD_cons_succ]
          exact ih j (by simpa using h)

omit [Inhabited V] in
lemma getLast?_getD_eq (l : List V) (d : V) (hl : l ≠ []) :
    l.getLast?.getD d = l.getD (l.length - 1) d := by
  induction l with
  | nil => exact absurd rfl hl
  | cons a t ih =>
      cases t with
      | nil => simp
      | cons b u =>
          rw [List.getLast?_cons_cons]
          have := ih (by simp)
          rw [this]
          simp

omit [Inhabited V] in
lemma getD_zipWith {A B C : Type} (f : A → B → C) (l₁ : List A) (l₂ : List B)
    (i : Nat) (d : C) (d₁ : A) (d₂ : B)
    (h₁ : i < l₁.length) (h₂ : i < l₂.length) :
    (List.zipWith f l₁ l₂).getD i d = f (l₁.getD i d₁) (l₂.getD i d₂) := by
  induction l₁ generalizing l₂ i with
  | nil => simp at h₁
  | cons a t ih =>
      cases l₂ with
      | nil => simp at h₂
      | cons b u =>
          cases i with
          | zero => simp
          | succ j =>
              simp only [List.zipWith_cons_cons, List.getD_cons_succ]
              exact ih u j (by simpa using h₁) (by simpa using h₂)

omit [Inhabited V] in
lemma zipWith_fst_of_le (new_values targets : List V)
    (h : new_values.length ≤ targets.length) :
    List.zipWith (fun nv _ => nv) new_values targets = new_values := by
  induction new_values generalizing targets with
  | nil => simp
  | cons a t ih =>
      cases targets with
      | nil => simp at h
      | cons b u =>
          simp only [List.zipWith_cons_cons, List.cons.injEq, true_and]
          exact ih u (by simpa using h)

lemma sample_single_loop_length (ops : Ops V) (cfg : GSNConfig) (w b : List V) (h1 : V) :
    ∀ (k : Nat) (x : V), (sample_single_loop ops cfg w b h1 k x).length = k := by
  intro k
  induction k with
  | zero => intro x; rfl
  | succ k ih => intro x; simp [sample_single_loop, ih]

lemma sampling_wrapper_snd_length (ops : Ops V) (cfg : GSNConfig) (w b : List V)
    (state : List V) (hs : 1 ≤ state.length) :
    ((sampling_wrapper ops cfg w b state).2).length = 1 := by
  unfold sampling_wrapper
  rw [update_layers_snd_length ops cfg w b state [] hs]
  simp

lemma sampling_wrapper_fst_length (ops : Ops V) (cfg : GSNConfig) (w b : List V)
    (state : List V) :
    ((sampling_wrapper ops cfg w b state).1).length = state.length := by
  unfold sampling_wrapper
  exact update_layers_fst_length ops cfg w b state []

lemma sample_multi_loop_length (ops : Ops V) (cfg : GSNConfig) (w b : List V) :
    ∀ (k : Nat) (state : List V), 1 ≤ state.length →
      (sample_multi_loop ops cfg w b k state).length = k := by
  intro k
  induction k with
  | zero => intro state _; rfl
  | succ k ih =>
      intro state hs
      have h1 := sampling_wrapper_snd_length ops cfg w b state hs
      have h2 : 1 ≤ ((sampling_wrapper ops cfg w b state).1).length := by
        rw [sampling_wrapper_fst_length]; exact hs
      simp [sample_multi_loop, h1, ih _ h2]
      omega

/-! The claim theorems. -/

/-- C1: for every layer count at least 1 and every walkback count k at
least 1, build_gsn produces a prediction chain of length exactly k; each
full sweep appends exactly one visible prediction; the odd pass never
appends; and zero walkbacks yield an empty chain. -/
theorem C1_build_gsn_chain_length (ops : Ops V) (cfg : GSNConfig) (X : V)
    (w b : List V) (k : Nat) (_hlayers : 1 ≤ w.length) (_hk : 1 ≤ k) :
    ((build_gsn ops cfg X w b k).1).length = k
    ∧ ((build_gsn ops cfg X w b 0).1).length = 0
    ∧ (∀ hiddens chain : List V, 1 ≤ hiddens.length →
        ((update_layers ops cfg w b hiddens chain).2).length = chain.length + 1)
    ∧ (∀ hiddens chain : List V,
        (applySublist ops cfg w b (hiddens, chain) (oddIndices hiddens.length)).2 = chain)
    ∧ (∀ (hiddens chain : List V) (i : Nat), i ≠ 0 →
        (simple_update_layer ops cfg w b hiddens chain i).2 = chain) := by
  refine ⟨build_gsn_chain_length ops cfg X w b k, build_gsn_chain_length ops cfg X w b 0,
    fun hiddens chain hn => update_layers_snd_length ops cfg w b hiddens chain hn,
    fun hiddens chain => ?_,
    fun hiddens chain i hi => simple_update_layer_snd_of_ne ops cfg w b hiddens chain i hi⟩
  exact congrArg Prod.snd (update_odd_layers_pair ops cfg w b hiddens chain)

/-- Witness for C1 at a concrete two-hidden-layer model with three
walkbacks over the one-value backend. -/
theorem C1_build_gsn_chain_length_witness :
    (1 ≤ ([(), ()] : List Unit).length ∧ 1 ≤ 3)
    ∧ (((build_gsn unitOps cfgTrain () [(), ()] [(), (), ()] 3).1).length = 3
      ∧ ((build_gsn unitOps cfgTrain () [(), ()] [(), (), ()] 0).1).length = 0
      ∧ (∀ hiddens chain : List Unit, 1 ≤ hiddens.length →
          ((update_layers unitOps cfgTrain [(), ()] [(), (), ()] hiddens chain).2).length
            = chain.length + 1)
      ∧ (∀ hiddens chain : List Unit,
          (applySublist unitOps cfgTrain [(), ()] [(), (), ()] (hiddens, chain)
            (oddIndices hiddens.length)).2 = chain)
      ∧ (∀ (hiddens chain : List Unit) (i : Nat), i ≠ 0 →
          (simple_update_layer unitOps cfgTrain [(), ()] [(), (), ()] hiddens chain i).2
            = chain)) :=
  ⟨⟨by decide, by decide⟩,
   C1_build_gsn_chain_length unitOps cfgTrain () [(), ()] [(), (), ()] 3
     (by decide) (by decide)⟩

/-- C2: the visible-layer update appends the clean post-activation value
to the chain, then optionally resamples it as a Bernoulli draw, then
applies salt-and-pepper masking, and stores the corrupted value, not the
clean chain entry, as the new visible-layer state; in the free term
algebra the stored state visibly differs from the appended entry. -/
theorem C2_visible_update (ops : Ops V) (cfg : GSNConfig)
    (w b hiddens chain : List V) :
    ((simple_update_layer ops cfg w b hiddens chain 0).2
        = chain ++ [ops.visible_activation (preActivation ops w b hiddens 0)])
    ∧ ((simple_update_layer ops cfg w b hiddens chain 0).1
        = hiddens.set 0 (ops.salt_pepper cfg.input_salt_and_pepper
            (if cfg.input_sampling = true then
              ops.binomial (ops.visible_activation (preActivation ops w b hiddens 0))
            else ops.visible_activation (preActivation ops w b hiddens 0))))
    ∧ ((simple_update_layer exprOps cfgTrain [Expr.weight 0] [Expr.bias 0, Expr.bias 1]
          [Expr.atom 0, Expr.atom 1] [] 0).1.getD 0 default
        ≠ (simple_update_layer exprOps cfgTrain [Expr.weight 0] [Expr.bias 0, Expr.bias 1]
          [Expr.atom 0, Expr.atom 1] [] 0).2.getD 0 default) := by
  refine ⟨simple_update_layer_snd_zero ops cfg w b hiddens chain, ?_, by decide⟩
  unfold simple_update_layer
  simp

/-- C3: the pre-activation follows the topological rule at the visible,
top and interior layers, and consequently a one-hidden-layer noise-free
model with one walkback yields the closed-form chain entry
visible_activation(dot(hidden_activation(dot(x, W) + b1), transpose W) + b0). -/
theorem C3_topological_rule (ops : Ops V) (cfg : GSNConfig)
    (hnoise : cfg.add_noise = false) :
    (∀ w b hiddens : List V,
        preActivation ops w b hiddens 0
          = ops.add (ops.dot (hiddens.getD 1 default) (ops.transpose (w.getD 0 default)))
              (b.getD 0 default))
    ∧ (∀ (w b hiddens : List V) (i : Nat), i ≠ 0 → i = hiddens.length - 1 →
        preActivation ops w b hiddens i
          = ops.add (ops.dot (hiddens.getD (i - 1) default) (w.getD (i - 1) default))
              (b.getD i default))
    ∧ (∀ (w b hiddens : List V) (i : Nat), i ≠ 0 → i ≠ hiddens.length - 1 →
        preActivation ops w b hiddens i
          = ops.add
              (ops.add (ops.dot (hiddens.getD (i + 1) default) (ops.transpose (w.getD i default)))
                (ops.dot (hiddens.getD (i - 1) default) (w.getD (i - 1) default)))
              (b.getD i default))
    ∧ (∀ X W b0 b1 : V,
        (build_gsn ops cfg X [W] [b0, b1] 1).1
          = [ops.visible_activation
              (ops.add (ops.dot (ops.hidden_activation (ops.add (ops.dot X W) b1))
                (ops.transpose W)) b0)]) := by
  refine ⟨fun w b hiddens => by simp [preActivation],
    fun w b hiddens i hi htop => by subst htop; simp [preActivation, hi],
    fun w b hiddens i hi htop => by simp [preActivation, hi, htop],
    fun X W b0 b1 => ?_⟩
  simp [build_gsn, hnoise, walkback_iter, update_layers, update_even_layers,
    update_odd_layers, applySublist, oddIndices, evenIndices, init_hiddens_from,
    simple_update_layer, layer_noise, preActivation, List.range_succ]

/-- Witness for C3 over the free term algebra with the reconstruction
configuration. -/
theorem C3_topological_rule_witness :
    cfgRecon.add_noise = false
    ∧ ((∀ w b hiddens : List Expr,
        preActivation exprOps w b hiddens 0
          = exprOps.add
              (exprOps.dot (hiddens.getD 1 default) (exprOps.transpose (w.getD 0 default)))
              (b.getD 0 default))
    ∧ (∀ (w b hiddens : List Expr) (i : Nat), i ≠ 0 → i = hiddens.length - 1 →
        preActivation exprOps w b hiddens i
          = exprOps.add
              (exprOps.dot (hiddens.getD (i - 1) default) (w.getD (i - 1) default))
              (b.getD i default))
    ∧ (∀ (w b hiddens : List Expr) (i : Nat), i ≠ 0 → i ≠ hiddens.length - 1 →
        preActivation exprOps w b hiddens i
          = exprOps.add
              (exprOps.add
                (exprOps.dot (hiddens.getD (i + 1) default) (exprOps.transpose (w.getD i default)))
                (exprOps.dot (hiddens.getD (i - 1) default) (w.getD (i - 1) default)))
              (b.getD i default))
    ∧ (∀ X W b0 b1 : Expr,
        (build_gsn exprOps cfgRecon X [W] [b0, b1] 1).1
          = [exprOps.visible_activation
              (exprOps.add (exprOps.dot (exprOps.hidden_activation (exprOps.add (exprOps.dot X W) b1))
                (exprOps.transpose W)) b0)])) :=
  ⟨by decide, C3_topological_rule exprOps cfgRecon (by decide)⟩

/-- C6: the forward sweep applies the update rule at the odd indices and
then at the even indices, the replay sweep at the even indices and then
at the odd indices; the index lists are in increasing order, list
exactly the odd (respectively even) indices below the stack length, and
each appears once. -/
theorem C6_sweep_order (ops : Ops V) (cfg : GSNConfig) (w b : List V) :
    (∀ hiddens chain : List V,
        update_layers ops cfg w b hiddens chain
          = applySublist ops cfg w b (hiddens, chain)
              (oddIndices hiddens.length ++ evenIndices hiddens.length))
    ∧ (∀ hiddens chain : List V,
        update_layers_reverse ops cfg w b hiddens chain
          = applySublist ops cfg w b (hiddens, chain)
              (evenIndices hiddens.length ++ oddIndices hiddens.length))
    ∧ (∀ n : Nat, List.Sorted (· < ·) (oddIndices n) ∧ List.Sorted (· < ·) (evenIndices n)
        ∧ (oddIndices n).Nodup ∧ (evenIndices n).Nodup)
    ∧ (∀ n i : Nat, (i ∈ oddIndices n ↔ i < n ∧ i % 2 = 1)
        ∧ (i ∈ evenIndices n ↔ i < n ∧ i % 2 = 0)) := by
  refine ⟨fun hiddens chain => ?_, fun hiddens chain => ?_, fun n => ?_, fun n i => ?_⟩
  · rw [applySublist_append, update_odd_layers_pair]
    unfold update_layers update_even_layers
    rw [update_odd_layers_length]
  · rw [applySublist_append]
    unfold update_layers_reverse update_even_layers
    set st := applySublist ops cfg w b (hiddens, chain) (evenIndices hiddens.length) with hst
    have hlen : st.1.length = hiddens.length := by
      rw [hst]
      exact applySublist_fst_length ops cfg w b _ _
    rw [← hlen]
    exact (update_odd_layers_pair ops cfg w b st.1 st.2).symm
  · have hodd : List.Sorted (· < ·) (oddIndices n) :=
      (List.pairwise_lt_range n).filter _
    have heven : List.Sorted (· < ·) (evenIndices n) :=
      (List.pairwise_lt_range n).filter _
    exact ⟨hodd, heven, hodd.nodup, heven.nodup⟩
  · exact ⟨mem_oddIndices, mem_evenIndices⟩

/-- C5: with noise enabled, every hidden-layer update adds Gaussian
noise with hidden_add_noise_sigma twice, once before and once after the
activation; layer 1 with noiseless_h1 set receives neither dose; and
the visible layer never receives Gaussian noise.  The last conjuncts
count Gaussian applications in the free term algebra on a concrete
three-layer stack: none in the visible update, none in the gated first
hidden layer, two in an ungated hidden layer. -/
theorem C5_hidden_noise (ops : Ops V) (cfg : GSNConfig) (w b hiddens chain : List V)
    (hnoise : cfg.add_noise = true) :
    (∀ i : Nat, i ≠ 0 → ¬(i = 1 ∧ cfg.noiseless_h1 = true) →
      simple_update_layer ops cfg w b hiddens chain i
        = (hiddens.set i
            (ops.gaussian cfg.hidden_add_noise_sigma
              (ops.hidden_activation (ops.gaussian cfg.hidden_add_noise_sigma
                (preActivation ops w b hiddens i)))), chain))
    ∧ (cfg.noiseless_h1 = true →
      simple_update_layer ops cfg w b hiddens chain 1
        = (hiddens.set 1 (ops.hidden_activation (preActivation ops w b hiddens 1)), chain))
    ∧ Expr.gaussCount ((simple_update_layer exprOps cfgTrain [Expr.weight 0, Expr.weight 1]
        [Expr.bias 0, Expr.bias 1, Expr.bias 2]
        [Expr.atom 0, Expr.atom 1, Expr.atom 2] [] 0).1.getD 0 default) = 0
    ∧ Expr.gaussCount ((simple_update_layer exprOps cfgTrain [Expr.weight 0, Expr.weight 1]
        [Expr.bias 0, Expr.bias 1, Expr.bias 2]
        [Expr.atom 0, Expr.atom 1, Expr.atom 2] [] 0).2.getD 0 default) = 0
    ∧ Expr.gaussCount ((simple_update_layer exprOps cfgTrain [Expr.weight 0, Expr.weight 1]
        [Expr.bias 0, Expr.bias 1, Expr.bias 2]
        [Expr.atom 0, Expr.atom 1, Expr.atom 2] [] 1).1.getD 1 default) = 0
    ∧ Expr.gaussCount ((simple_update_layer exprOps cfgNoisyH1 [Expr.weight 0, Expr.weight 1]
        [Expr.bias 0, Expr.bias 1, Expr.bias 2]
        [Expr.atom 0, Expr.atom 1, Expr.atom 2] [] 1).1.getD 1 default) = 2
    ∧ Expr.gaussCount ((simple_update_layer exprOps cfgTrain [Expr.weight 0, Expr.weight 1]
        [Expr.bias 0, Expr.bias 1, Expr.bias 2]
        [Expr.atom 0, Expr.atom 1, Expr.atom 2] [] 2).1.getD 2 default) = 2 := by
  refine ⟨fun i hi hgate => ?_, fun hless => ?_, by decide, by decide, by decide,
    by decide, by decide⟩
  · unfold simple_update_layer layer_noise
    rw [if_neg hgate]
    simp [hi, hnoise]
  · unfold simple_update_layer layer_noise
    simp [hless]

/-- Witness for C5 over the free term algebra with the default training
configuration on a concrete three-layer stack. -/
theorem C5_hidden_noise_witness :
    cfgTrain.add_noise = true
    ∧ ((∀ i : Nat, i ≠ 0 → ¬(i = 1 ∧ cfgTrain.noiseless_h1 = true) →
      simple_update_layer exprOps cfgTrain [Expr.weight 0, Expr.weight 1]
          [Expr.bias 0, Expr.bias 1, Expr.bias 2]
          [Expr.atom 0, Expr.atom 1, Expr.atom 2] [] i
        = ([Expr.atom 0, Expr.atom 1, Expr.atom 2].set i
            (exprOps.gaussian cfgTrain.hidden_add_noise_sigma
              (exprOps.hidden_activation (exprOps.gaussian cfgTrain.hidden_add_noise_sigma
                (preActivation exprOps [Expr.weight 0, Expr.weight 1]
                  [Expr.bias 0, Expr.bias 1, Expr.bias 2]
                  [Expr.atom 0, Expr.atom 1, Expr.atom 2] i)))), []))
    ∧ (cfgTrain.noiseless_h1 = true →
      simple_update_layer exprOps cfgTrain [Expr.weight 0, Expr.weight 1]
          [Expr.bias 0, Expr.bias 1, Expr.bias 2]
          [Expr.atom 0, Expr.atom 1, Expr.atom 2] [] 1
        = ([Expr.atom 0, Expr.atom 1, Expr.atom 2].set 1
            (exprOps.hidden_activation (preActivation exprOps [Expr.weight 0, Expr.weight 1]
              [Expr.bias 0, Expr.bias 1, Expr.bias 2]
              [Expr.atom 0, Expr.atom 1, Expr.atom 2] 1)), []))
    ∧ Expr.gaussCount ((simple_update_layer exprOps cfgTrain [Expr.weight 0, Expr.weight 1]
        [Expr.bias 0, Expr.bias 1, Expr.bias 2]
        [Expr.atom 0, Expr.atom 1, Expr.atom 2] [] 0).1.getD 0 default) = 0
    ∧ Expr.gaussCount ((simple_update_layer exprOps cfgTrain [Expr.weight 0, Expr.weight 1]
        [Expr.bias 0, Expr.bias 1, Expr.bias 2]
        [Expr.atom 0, Expr.atom 1, Expr.atom 2] [] 0).2.getD 0 default) = 0
    ∧ Expr.gaussCount ((simple_update_layer exprOps cfgTrain [Expr.weight 0, Expr.weight 1]
        [Expr.bias 0, Expr.bias 1, Expr.bias 2]
        [Expr.atom 0, Expr.atom 1, Expr.atom 2] [] 1).1.getD 1 default) = 0
    ∧ Expr.gaussCount ((simple_update_layer exprOps cfgNoisyH1 [Expr.weight 0, Expr.weight 1]
        [Expr.bias 0, Expr.bias 1, Expr.bias 2]
        [Expr.atom 0, Expr.atom 1, Expr.atom 2] [] 1).1.getD 1 default) = 2
    ∧ Expr.gaussCount ((simple_update_layer exprOps cfgTrain [Expr.weight 0, Expr.weight 1]
        [Expr.bias 0, Expr.bias 1, Expr.bias 2]
        [Expr.atom 0, Expr.atom 1, Expr.atom 2] [] 2).1.getD 2 default) = 2) :=
  ⟨by decide, C5_hidden_noise exprOps cfgTrain [Expr.weight 0, Expr.weight 1]
    [Expr.bias 0, Expr.bias 1, Expr.bias 2]
    [Expr.atom 0, Expr.atom 1, Expr.atom 2] [] (by decide)⟩

/-- C4: the total training cost is the sum of the per-step costs of all
chain entries against the true input, exactly one summand per walkback
step, and the reported progress metric is the cost of the last chain
entry; build_gsn_scan returns exactly these two quantities. -/
theorem C4_cost_accumulation (ops : Ops V) (cfg : GSNConfig) (X : V)
    (w b : List V) (cost_function : V → V → Rat) (k : Nat) (hk : 1 ≤ k) :
    gsn_cost cost_function ((build_gsn ops cfg X w b k).1) X
      = ∑ i in Finset.range k,
          cost_function (((build_gsn ops cfg X w b k).1).getD i default) X
    ∧ show_gsn_cost cost_function ((build_gsn ops cfg X w b k).1) X
      = cost_function (((build_gsn ops cfg X w b k).1).getD (k - 1) default) X
    ∧ (build_gsn_scan ops cfg X w b k cost_function).2.1
      = gsn_cost cost_function ((build_gsn ops cfg X w b k).1) X
    ∧ (build_gsn_scan ops cfg X w b k cost_function).2.2
      = show_gsn_cost cost_function ((build_gsn ops cfg X w b k).1) X := by
  have hlen : ((build_gsn ops cfg X w b k).1).length = k :=
    build_gsn_chain_length ops cfg X w b k
  refine ⟨?_, ?_, rfl, rfl⟩
  · unfold gsn_cost gsn_costs
    rw [list_sum_eq_range_getD, List.length_map, hlen]
    refine Finset.sum_congr rfl fun i hi => ?_
    exact getD_map_of_lt _ _ i 0 (by rw [hlen]; exact Finset.mem_range.mp hi)
  · unfold show_gsn_cost gsn_costs
    have hne : ((build_gsn ops cfg X w b k).1).map (fun rX => cost_function rX X) ≠ [] := by
      intro hcontra
      have := congrArg List.length hcontra
      rw [List.length_map, hlen] at this
      simp at this
      omega
    rw [getLast?_getD_eq _ _ hne, List.length_map, hlen]
    exact getD_map_of_lt _ _ (k - 1) 0 (by rw [hlen]; omega)

/-- Witness for C4 at a concrete one-layer model with two walkbacks and
a constant cost over the one-value backend. -/
theorem C4_cost_accumulation_witness :
    1 ≤ 2
    ∧ (gsn_cost (fun _ _ => (1 : Rat)) ((build_gsn unitOps cfgTrain () [()] [(), ()] 2).1) ()
      = ∑ i in Finset.range 2,
          (fun (_ : Unit) (_ : Unit) => (1 : Rat))
            (((build_gsn unitOps cfgTrain () [()] [(), ()] 2).1).getD i default) ()
    ∧ show_gsn_cost (fun _ _ => (1 : Rat)) ((build_gsn unitOps cfgTrain () [()] [(), ()] 2).1) ()
      = (fun (_ : Unit) (_ : Unit) => (1 : Rat))
          (((build_gsn unitOps cfgTrain () [()] [(), ()] 2).1).getD (2 - 1) default) ()
    ∧ (build_gsn_scan unitOps cfgTrain () [()] [(), ()] 2 (fun _ _ => (1 : Rat))).2.1
      = gsn_cost (fun _ _ => (1 : Rat)) ((build_gsn unitOps cfgTrain () [()] [(), ()] 2).1) ()
    ∧ (build_gsn_scan unitOps cfgTrain () [()] [(), ()] 2 (fun _ _ => (1 : Rat))).2.2
      = show_gsn_cost (fun _ _ => (1 : Rat))
          ((build_gsn unitOps cfgTrain () [()] [(), ()] 2).1) ()) :=
  ⟨by decide, C4_cost_accumulation unitOps cfgTrain () [()] [(), ()]
    (fun _ _ => (1 : Rat)) 2 (by decide)⟩

/-- C7: for every requested sample count of at least one, GSN.sample
returns exactly that many entries in both the single-hidden-layer mode
and the multi-hidden-layer mode, and in the multi-layer mode each sweep
on a nonempty network state emits exactly one visible prediction. -/
theorem C7_sample_length (ops : Ops V) (cfg : GSNConfig) (layers : Nat)
    (w b : List V) (h1 initial zeroH : V) (n : Nat) (hn : 1 ≤ n) :
    (GSN.sample ops cfg layers w b h1 initial zeroH n).length = n
    ∧ (∀ state : List V, 1 ≤ state.length →
        ((sampling_wrapper ops cfg w b state).2).length = 1) := by
  constructor
  · unfold GSN.sample
    by_cases hl : layers = 1
    · rw [if_pos hl]
      unfold sample_some_numbers_single_layer
      rw [List.length_cons, sample_single_loop_length]
      omega
    · rw [if_neg hl]
      unfold sample_some_numbers
      rw [List.length_cons, sample_multi_loop_length]
      · omega
      · simp
  · exact fun state hs => sampling_wrapper_snd_length ops cfg w b state hs

/-- Witness for C7 at a concrete three-hidden-layer model asking for
four samples over the one-value backend. -/
theorem C7_sample_length_witness :
    1 ≤ 4
    ∧ ((GSN.sample unitOps cfgTrain 3 [(), (), ()] [(), (), (), ()] () () () 4).length = 4
    ∧ (∀ state : List Unit, 1 ≤ state.length →
        ((sampling_wrapper unitOps cfgTrain [(), (), ()] [(), (), (), ()] state).2).length
          = 1)) :=
  ⟨by decide, C7_sample_length unitOps cfgTrain 3 [(), (), ()] [(), (), (), ()]
    () () () 4 (by decide)⟩

/-- C10: in both sampling modes the first collected output entry is the
clean seed itself; the salt-and-pepper corrupted copy of the seed is
what enters the loop or the network state, never the first entry. -/
theorem C10_sample_head (ops : Ops V) (cfg : GSNConfig) (layers : Nat)
    (w b : List V) (h1 initial zeroH : V) (n : Nat) :
    (GSN.sample ops cfg layers w b h1 initial zeroH n).head? = some initial
    ∧ sample_some_numbers_single_layer ops cfg w b h1 initial n
        = initial :: sample_single_loop ops cfg w b h1 (n - 1) (f_noise ops cfg initial)
    ∧ sample_some_numbers ops cfg w b initial zeroH n
        = initial :: sample_multi_loop ops cfg w b (n - 1)
            (f_noise ops cfg initial :: List.replicate (b.length - 1) zeroH) := by
  refine ⟨?_, rfl, rfl⟩
  unfold GSN.sample
  by_cases hl : layers = 1
  · rw [if_pos hl]; rfl
  · rw [if_neg hl]; rfl

/-- C9: each minibatch step sets every momentum buffer to
momentum * buffer + (1 - momentum) * gradient and moves every parameter
by learning_rate times the newly computed buffer value, with one buffer
per parameter. -/
theorem C9_momentum_sgd (learning_rate momentum : Rat)
    (params gradient_buffer gradient : List Rat)
    (hpb : params.length = gradient_buffer.length)
    (hbg : gradient_buffer.length = gradient.length)
    (i : Nat) (hi : i < params.length) :
    ((gsn_sgd_updates learning_rate momentum params gradient_buffer gradient).2).getD i 0
        = momentum * gradient_buffer.getD i 0 + (1 - momentum) * gradient.getD i 0
    ∧ ((gsn_sgd_updates learning_rate momentum params gradient_buffer gradient).1).getD i 0
        = params.getD i 0
          - learning_rate *
            ((gsn_sgd_updates learning_rate momentum params gradient_buffer gradient).2).getD i 0
    ∧ ((gsn_sgd_updates learning_rate momentum params gradient_buffer gradient).1).length
        = params.length
    ∧ ((gsn_sgd_updates learning_rate momentum params gradient_buffer gradient).2).length
        = params.length := by
  have hib : i < gradient_buffer.length := by omega
  have hig : i < gradient.length := by omega
  have himg : i < (List.zipWith (m_gradient_step momentum) gradient_buffer gradient).length := by
    rw [List.length_zipWith]
    omega
  refine ⟨?_, ?_, ?_, ?_⟩
  · unfold gsn_sgd_updates
    rw [getD_zipWith _ _ _ i 0 0 0 hib hig]
    rfl
  · unfold gsn_sgd_updates
    rw [getD_zipWith _ _ _ i 0 0 0 hi himg]
  · unfold gsn_sgd_updates
    rw [List.length_zipWith, List.length_zipWith]
    omega
  · unfold gsn_sgd_updates
    rw [List.length_zipWith]
    omega

/-- Witness for C9 on a concrete two-parameter model. -/
theorem C9_momentum_sgd_witness :
    ([(1 : Rat), 2].length = [(0 : Rat), 0].length
      ∧ [(0 : Rat), 0].length = [(3 : Rat), 4].length ∧ 0 < [(1 : Rat), 2].length)
    ∧ (((gsn_sgd_updates (1/2) (1/2) [1, 2] [0, 0] [3, 4]).2).getD 0 0
        = (1/2) * ([(0 : Rat), 0].getD 0 0) + (1 - 1/2) * ([(3 : Rat), 4].getD 0 0)
    ∧ ((gsn_sgd_updates (1/2) (1/2) [1, 2] [0, 0] [3, 4]).1).getD 0 0
        = ([(1 : Rat), 2].getD 0 0)
          - (1/2) * (((gsn_sgd_updates (1/2) (1/2) [1, 2] [0, 0] [3, 4]).2).getD 0 0)
    ∧ ((gsn_sgd_updates (1/2) (1/2) [1, 2] [0, 0] [3, 4]).1).length = [(1 : Rat), 2].length
    ∧ ((gsn_sgd_updates (1/2) (1/2) [1, 2] [0, 0] [3, 4]).2).length = [(1 : Rat), 2].length) :=
  ⟨⟨by decide, by decide, by decide⟩,
   C9_momentum_sgd (1/2) (1/2) [1, 2] [0, 0] [3, 4] (by decide) (by decide) 0 (by decide)⟩

/-- C8 counterexample: loading a checkpoint list holding one parameter
into a model with two weight matrices and three biases completes with
no error outcome and assigns the first weight while keeping the second
and all biases, a partial truncated assignment; the resulting weight
list differs from the original, so parameters were partially
overwritten rather than the load failing fast. -/
theorem C8_load_mismatch_counterexample :
    GSN.load_params [Expr.atom 10] [Expr.weight 0, Expr.weight 1]
        [Expr.bias 0, Expr.bias 1, Expr.bias 2]
      = ([Expr.atom 10, Expr.weight 1], [Expr.bias 0, Expr.bias 1, Expr.bias 2])
    ∧ ([Expr.atom 10, Expr.weight 1] : List Expr) ≠ [Expr.weight 0, Expr.weight 1]
    ∧ (Expr.atom 10 : Expr) ≠ Expr.weight 0 := by
  decide

omit [Inhabited V] in
/-- C8 amended: GSN.load_params zips the loaded list against the
current parameters and silently truncates, assigning only the
overlapping prefix with no error outcome, while Model.set_param_values
detects a length mismatch, leaves every parameter unchanged and
signals failure by returning false instead of raising. -/
theorem C8_load_params_truncation (loaded weights biases : List V)
    (h : loaded.length ≤ weights.length)
    (param_values params : List V)
    (hne : param_values.length ≠ params.length) :
    GSN.load_params loaded weights biases
      = (loaded ++ weights.drop loaded.length, biases)
    ∧ Model.set_param_values params param_values = (params, false) := by
  constructor
  · unfold GSN.load_params zipAssign
    rw [List.take_of_length_le h, zipWith_fst_of_le loaded weights h,
      List.drop_eq_nil_of_le h]
    simp
  · unfold Model.set_param_values
    rw [if_pos hne]

/-- Witness for the amended C8 on concrete parameter lists. -/
theorem C8_load_params_truncation_witness :
    (([Expr.atom 10] : List Expr).length ≤ ([Expr.weight 0, Expr.weight 1] : List Expr).length
      ∧ ([Expr.atom 1] : List Expr).length ≠ ([] : List Expr).length)
    ∧ (GSN.load_params [Expr.atom 10] [Expr.weight 0, Expr.weight 1] [Expr.bias 0]
        = ([Expr.atom 10] ++ [Expr.weight 0, Expr.weight 1].drop ([Expr.atom 10].length),
           [Expr.bias 0])
    ∧ Model.set_param_values ([] : List Expr) [Expr.atom 1] = ([], false)) :=
  ⟨⟨by decide, by decide⟩,
   C8_load_params_truncation [Expr.atom 10] [Expr.weight 0, Expr.weight 1] [Expr.bias 0]
     (by decide) [Expr.atom 1] [] (by decide)⟩

end GSNSpec
